import Mathlib

/-!
Shallow embedding of the similarity-scoring and verdict-decision engine of the
Microprocessor & Interface Design plagiarism checker (`src/detector.py`,
`src/preprocessor.py`, `src/llm_analyzer.py`, `src/main.py`, and the
result-ordering step of `src/reporter.py`), together with theorems settling
the specification claims.

Scores are modelled as rationals (ℚ): every score produced by the Python code
is a ratio of integers (LCS ratios, Levenshtein ratios, arithmetic means), so
ℚ is a faithful model of the float values actually produced on these inputs.
-/

namespace Plag

/-! ## detector.py -/

/-- Helper for `tokenize_code`: whitespace-run splitting over the character
list of a string, accumulating the current (reversed) word.  This is the
semantics of Python's `text.split()`: maximal nonempty runs of
non-whitespace characters, in order. -/
def wordsAux : List Char → List Char → List (List Char)
  | [], acc => if acc = [] then [] else [acc.reverse]
  | c :: cs, acc =>
      if c.isWhitespace then
        if acc = [] then wordsAux cs [] else acc.reverse :: wordsAux cs []
      else wordsAux cs (c :: acc)

/-- `detector.tokenize_code`: whitespace tokenization.  Python's
`text.split()` splits on runs of whitespace and drops empty tokens;
the guard `if not text: return []` is the first branch. -/
def tokenize_code (text : String) : List String :=
  if text = "" then []
  else (wordsAux text.data []).map String.mk

/-- `detector.lcs_length`: length of the longest common subsequence of two
token lists.  The Python source fills the classical DP table
`dp[i][j] = dp[i-1][j-1]+1` on a token match, else `max(dp[i-1][j], dp[i][j-1])`,
with zero base row/column, and returns `dp[m][n]`; this structural recursion
computes the same recurrence (the table over prefixes and the recursion over
suffixes agree on the LCS length).  The `if not tokens1 or not tokens2:
return 0` guard is the base cases. -/
def lcs_length : List String → List String → Nat
  | [], _ => 0
  | _, [] => 0
  | a :: xs, b :: ys =>
      if a = b then lcs_length xs ys + 1
      else max (lcs_length xs (b :: ys)) (lcs_length (a :: xs) ys)
  termination_by l1 l2 => l1.length + l2.length

/-- `detector.calculate_token_sequence_similarity`:
`2 * LCS / (len(tokens1) + len(tokens2))` with the emptiness guards of the
source, first on the raw strings and then on the token lists. -/
def calculate_token_sequence_similarity (text1 text2 : String) : ℚ :=
  if text1 = "" ∧ text2 = "" then 1
  else if text1 = "" ∨ text2 = "" then 0
  else
    let tokens1 := tokenize_code text1
    let tokens2 := tokenize_code text2
    if tokens1 = [] ∧ tokens2 = [] then 1
    else if tokens1 = [] ∨ tokens2 = [] then 0
    else
      let lcs_len := lcs_length tokens1 tokens2
      let total_len := tokens1.length + tokens2.length
      if 0 < total_len then (2 * lcs_len : ℚ) / (total_len : ℚ) else 0

/-- Modelled from the spec: the weighted edit distance used by the external
`Levenshtein` python library (not part of this repository), in which
insertion and deletion cost 1 and substitution costs 2 (spec §4.2's
design note: "substitution costs twice as much as insertion/deletion"). -/
def lev2 : List Char → List Char → Nat
  | [], ys => ys.length
  | xs, [] => xs.length
  | x :: xs, y :: ys =>
      if x = y then lev2 xs ys
      else min (lev2 xs (y :: ys) + 1) (min (lev2 (x :: xs) ys + 1) (lev2 xs ys + 2))
  termination_by l1 l2 => l1.length + l2.length

/-- Modelled from the spec: the external library's `Levenshtein.ratio`,
`ratio = (len1 + len2 - distance) / (len1 + len2)` over the two character
sequences (spec §4.2). -/
def levenshtein_ratio (s1 s2 : String) : ℚ :=
  let l1 := s1.data.length
  let l2 := s2.data.length
  if l1 + l2 = 0 then 1
  else ((l1 + l2 : ℚ) - (lev2 s1.data s2.data : ℚ)) / ((l1 + l2 : ℚ))

/-- `detector.calculate_levenshtein_similarity`: the two emptiness guards of
the source followed by `Levenshtein.ratio`. -/
def calculate_levenshtein_similarity (text1 text2 : String) : ℚ :=
  if text1 = "" ∧ text2 = "" then 1
  else if text1 = "" ∨ text2 = "" then 0
  else levenshtein_ratio text1 text2

/-- The dictionary returned by `detector.calculate_combined_similarity`
(keys `token_seq` and `levenshtein`). -/
structure SrcSim where
  token_seq : ℚ
  levenshtein : ℚ
  deriving DecidableEq, Repr

/-- `detector.calculate_combined_similarity`. -/
def calculate_combined_similarity (text1 text2 : String) : SrcSim :=
  { token_seq := calculate_token_sequence_similarity text1 text2
    levenshtein := calculate_levenshtein_similarity text1 text2 }

/-! ### Lemmas about `lcs_length` -/

theorem lcs_length_le_left : ∀ l1 l2 : List String, lcs_length l1 l2 ≤ l1.length
  | [], l2 => by simp [lcs_length]
  | a :: xs, [] => by simp [lcs_length]
  | a :: xs, b :: ys => by
      by_cases h : a = b
      · have := lcs_length_le_left xs ys
        simp only [lcs_length, if_pos h, List.length_cons]
        omega
      · have h1 := lcs_length_le_left xs (b :: ys)
        have h2 := lcs_length_le_left (a :: xs) ys
        simp only [lcs_length, if_neg h, List.length_cons] at h1 h2 ⊢
        omega
  termination_by l1 l2 => l1.length + l2.length

theorem lcs_length_le_right : ∀ l1 l2 : List String, lcs_length l1 l2 ≤ l2.length
  | [], l2 => by simp [lcs_length]
  | a :: xs, [] => by simp [lcs_length]
  | a :: xs, b :: ys => by
      by_cases h : a = b
      · have := lcs_length_le_right xs ys
        simp only [lcs_length, if_pos h, List.length_cons]
        omega
      · have h1 := lcs_length_le_right xs (b :: ys)
        have h2 := lcs_length_le_right (a :: xs) ys
        simp only [lcs_length, if_neg h, List.length_cons] at h1 h2 ⊢
        omega
  termination_by l1 l2 => l1.length + l2.length

theorem lcs_length_self (l : List String) : lcs_length l l = l.length := by
  induction l with
  | nil => simp [lcs_length]
  | cons a xs ih => simp [lcs_length, ih]

theorem lcs_length_symm : ∀ l1 l2 : List String, lcs_length l1 l2 = lcs_length l2 l1
  | [], l2 => by cases l2 <;> simp [lcs_length]
  | a :: xs, [] => by simp [lcs_length]
  | a :: xs, b :: ys => by
      by_cases h : a = b
      · subst h
        simp [lcs_length, lcs_length_symm xs ys]
      · have h' : ¬ b = a := fun hba => h hba.symm
        have e1 := lcs_length_symm xs (b :: ys)
        have e2 := lcs_length_symm (a :: xs) ys
        simp only [lcs_length, if_neg h, if_neg h']
        omega
  termination_by l1 l2 => l1.length + l2.length

/-- If the LCS is as long as both lists, the lists are equal. -/
theorem lcs_length_eq_of_full : ∀ l1 l2 : List String,
    lcs_length l1 l2 = l1.length → l1.length = l2.length → l1 = l2
  | [], l2 => by
      intro _ h2
      cases l2 with
      | nil => rfl
      | cons b ys => simp at h2
  | a :: xs, [] => by
      intro _ h2
      simp at h2
  | a :: xs, b :: ys => by
      intro h1 h2
      by_cases h : a = b
      · subst h
        simp only [lcs_length, if_true, eq_self_iff_true, List.length_cons] at h1 h2
        have := lcs_length_eq_of_full xs ys (by omega) (by omega)
        rw [this]
      · exfalso
        have hx := lcs_length_le_left xs (b :: ys)
        have hy := lcs_length_le_right (a :: xs) ys
        simp only [lcs_length, if_neg h, List.length_cons] at h1 h2 hx hy
        omega
  termination_by l1 l2 => l1.length + l2.length

/-! ### Lemmas about `lev2` -/

theorem lev2_symm : ∀ l1 l2 : List Char, lev2 l1 l2 = lev2 l2 l1
  | [], l2 => by cases l2 <;> simp [lev2]
  | x :: xs, [] => by simp [lev2]
  | x :: xs, y :: ys => by
      by_cases h : x = y
      · subst h
        simp [lev2, lev2_symm xs ys]
      · have h' : ¬ y = x := fun hyx => h hyx.symm
        have e1 := lev2_symm xs (y :: ys)
        have e2 := lev2_symm (x :: xs) ys
        have e3 := lev2_symm xs ys
        simp only [lev2, if_neg h, if_neg h']
        omega
  termination_by l1 l2 => l1.length + l2.length

theorem levenshtein_ratio_symm (s1 s2 : String) :
    levenshtein_ratio s1 s2 = levenshtein_ratio s2 s1 := by
  simp only [levenshtein_ratio, lev2_symm s1.data s2.data]
  rw [Nat.add_comm s1.data.length s2.data.length]
  ring_nf

/-! ## A stable sort

Python's `list.sort` / `sorted` are stable sorts.  For a total preorder the
output of a stable sort is uniquely determined, so any stable sorting
algorithm is a faithful model; we use stable insertion sort.  `le a b = true`
means `a` is allowed to precede `b`. -/

/-- Insert `a` into `l` directly before the first element `b` with `le a b`;
since `le` holds between equal keys, `a` lands before every element it ties
with, which is exactly the stable position for an element that originally
came before all of `l`. -/
def stableInsert (le : α → α → Bool) (a : α) : List α → List α
  | [] => [a]
  | b :: bs => if le a b then a :: b :: bs else b :: stableInsert le a bs

/-- Stable insertion sort. -/
def stableSort (le : α → α → Bool) : List α → List α
  | [] => []
  | a :: as => stableInsert le a (stableSort le as)

theorem stableInsert_perm (le : α → α → Bool) (a : α) :
    ∀ l : List α, List.Perm (stableInsert le a l) (a :: l)
  | [] => List.Perm.refl _
  | b :: bs => by
      simp only [stableInsert]
      by_cases h : le a b
      · simp [h]
      · simp only [h, if_false]
        exact ((stableInsert_perm le a bs).cons b).trans (List.Perm.swap a b bs)

theorem stableSort_perm (le : α → α → Bool) :
    ∀ l : List α, List.Perm (stableSort le l) l
  | [] => List.Perm.refl _
  | a :: as =>
      (stableInsert_perm le a (stableSort le as)).trans ((stableSort_perm le as).cons a)

theorem pairwise_stableInsert (le : α → α → Bool)
    (htot : ∀ x y, le x y = true ∨ le y x = true)
    (htrans : ∀ x y z, le x y = true → le y z = true → le x z = true)
    (a : α) : ∀ l : List α, l.Pairwise (fun x y => le x y = true) →
      (stableInsert le a l).Pairwise (fun x y => le x y = true)
  | [], _ => by simp [stableInsert]
  | b :: bs, h => by
      rcases List.pairwise_cons.mp h with ⟨hb, hbs⟩
      simp only [stableInsert]
      by_cases hab : le a b
      · simp only [hab, if_true]
        refine List.pairwise_cons.mpr ⟨?_, h⟩
        intro y hy
        rcases List.mem_cons.mp hy with rfl | hy
        · exact hab
        · exact htrans a b y hab (hb y hy)
      · simp only [hab, if_false]
        refine List.pairwise_cons.mpr ⟨?_, pairwise_stableInsert le htot htrans a bs hbs⟩
        intro y hy
        rcases List.mem_cons.mp ((stableInsert_perm le a bs).mem_iff.mp hy) with rfl | hy'
        · rcases htot y b with hab' | hba
          · exact absurd hab' hab
          · exact hba
        · exact hb y hy'

theorem pairwise_stableSort (le : α → α → Bool)
    (htot : ∀ x y, le x y = true ∨ le y x = true)
    (htrans : ∀ x y z, le x y = true → le y z = true → le x z = true) :
    ∀ l : List α, (stableSort le l).Pairwise (fun x y => le x y = true)
  | [] => by simp [stableSort]
  | a :: as => pairwise_stableInsert le htot htrans a (stableSort le as)
      (pairwise_stableSort le htot htrans as)

/-- Stability, as preservation of any `Pairwise` relation of the input up to
strict `le`-inequality: in the sorted list, for `x` before `y`, either `x`
preceded `y` already in the input (so `R x y`), or `x` was strictly smaller.
In particular elements with equal keys stay in input order. -/
theorem pairwise_stableInsert_stable (le : α → α → Bool)
    (htot : ∀ x y, le x y = true ∨ le y x = true) {R : α → α → Prop} (a : α) :
    ∀ l : List α,
      l.Pairwise (fun x y => R x y ∨ (le x y = true ∧ ¬ le y x = true)) →
      (∀ x ∈ l, R a x) →
      (stableInsert le a l).Pairwise
        (fun x y => R x y ∨ (le x y = true ∧ ¬ le y x = true))
  | [], _, _ => by simp [stableInsert]
  | b :: bs, h, ha => by
      rcases List.pairwise_cons.mp h with ⟨hb, hbs⟩
      simp only [stableInsert]
      by_cases hab : le a b
      · simp only [hab, if_true]
        refine List.pairwise_cons.mpr ⟨?_, h⟩
        intro y hy
        rcases List.mem_cons.mp hy with rfl | hy
        · exact Or.inl (ha y (by simp))
        · exact Or.inl (ha y (List.mem_cons_of_mem b hy))
      · simp only [hab, if_false]
        refine List.pairwise_cons.mpr
          ⟨?_, pairwise_stableInsert_stable le htot a bs hbs
              (fun x hx => ha x (List.mem_cons_of_mem b hx))⟩
        intro y hy
        rcases List.mem_cons.mp ((stableInsert_perm le a bs).mem_iff.mp hy) with rfl | hy'
        · rcases htot y b with hab' | hba
          · exact absurd hab' hab
          · exact Or.inr ⟨hba, hab⟩
        · exact hb y hy'

theorem pairwise_stableSort_stable (le : α → α → Bool)
    (htot : ∀ x y, le x y = true ∨ le y x = true) {R : α → α → Prop} :
    ∀ l : List α, l.Pairwise R →
      (stableSort le l).Pairwise
        (fun x y => R x y ∨ (le x y = true ∧ ¬ le y x = true))
  | [], _ => by simp [stableSort]
  | a :: as, h => by
      rcases List.pairwise_cons.mp h with ⟨ha, has⟩
      exact pairwise_stableInsert_stable le htot a (stableSort le as)
        (pairwise_stableSort_stable le htot as has)
        (fun x hx => ha x ((stableSort_perm le as).mem_iff.mp hx))

/-! ## preprocessor.py: hex integrity -/

/-- The `hex_info` dictionary produced by `preprocessor.normalize_hex` and
aggregated per student in `main.check_plagiarism`. -/
structure HexInfo where
  has_eof : Bool
  format_errors : List String
  valid_lines : Nat
  data_length : Nat
  deriving DecidableEq, Repr

/-- One anomaly record.  The `details` payload of the source (sample error
messages, raw numbers for display) is presentation-only and not modelled;
`code`, `severity` and `message` are. -/
structure Anomaly where
  code : String
  severity : String
  message : String
  deriving DecidableEq, Repr

/-- Python's `int()` applied to a numeric value: truncation toward zero. -/
def pyInt (q : ℚ) : ℤ := if q < 0 then ⌈q⌉ else ⌊q⌋

/-- `preprocessor.check_hex_integrity`: EOF check, format-error check,
median-length band check (only when the median is positive), and minimum
data check, with the messages of the source. -/
def check_hex_integrity (hex_info : HexInfo) (hex_length : Nat)
    (median_length : ℚ) : List Anomaly :=
  let error_count := hex_info.format_errors.length
  (if hex_info.has_eof = false then
    [{ code := "NO_EOF", severity := "warning", message := "缺少 EOF 標記" }]
   else [])
  ++ (if hex_info.format_errors ≠ [] then
    [{ code := "FORMAT_ERRORS", severity := "error",
       message := "格式錯誤 (" ++ toString error_count ++ " 處)" }]
   else [])
  ++ (if 0 < median_length then
      (if (hex_length : ℚ) < median_length * 0.75 then
        [{ code := "SHORT_LENGTH", severity := "warning",
           message := "長度過短 (" ++ toString hex_length ++ "，中位數"
             ++ toString (pyInt median_length) ++ ")" }]
       else if median_length * 1.25 < (hex_length : ℚ) then
        [{ code := "LONG_LENGTH", severity := "warning",
           message := "長度過長 (" ++ toString hex_length ++ "，中位數"
             ++ toString (pyInt median_length) ++ ")" }]
       else [])
     else [])
  ++ (if hex_length < 20 then
    [{ code := "INSUFFICIENT_DATA", severity := "error",
       message := "資料量不足 (" ++ toString hex_length ++ " 字元)" }]
   else [])

/-! ## main.py -/

/-- The per-student `student_data[student]` dictionary of
`main.check_plagiarism`, restricted to the fields that are inputs of the
scoring, anomaly and verdict phases.  (`hex_anomalies`, `source_anomalies`
and `has_anomaly` are outputs of later phases and are modelled below as
functions of the batch.) -/
structure StudentData where
  name : String
  source : String
  asm_source : String
  original_source : String
  hex : String
  hex_length : Nat
  hex_info : HexInfo
  illegal_submission : Bool
  illegal_reason : String
  deriving DecidableEq, Repr

/-- The batch median of `main.check_plagiarism` (lines 175-185): collect the
positive `hex_length` values, sort ascending, average the two central values
for an even count, take the central value for an odd count; `0` when no
student has a positive length. -/
def median_hex_length (batch : List StudentData) : ℚ :=
  let hex_lengths := ((batch.map (·.hex_length)).filter (fun n => decide (0 < n)))
  let sorted := stableSort (fun a b => decide (a ≤ b)) hex_lengths
  let n := sorted.length
  if n = 0 then 0
  else if n % 2 = 0 then
    ((sorted.getD (n / 2 - 1) 0 : ℚ) + (sorted.getD (n / 2) 0 : ℚ)) / 2
  else (sorted.getD (n / 2) 0 : ℚ)

/-- The hex-anomaly phase of `main.check_plagiarism` (lines 187-195): each
student's `hex_anomalies` list, in batch order.  The source guards the call
to `check_hex_integrity` with `if data['hex_length'] > 0`, so a student with
zero hex length keeps the initial empty list. -/
def assign_hex_anomalies (batch : List StudentData) : List (List Anomaly) :=
  batch.map fun data =>
    if 0 < data.hex_length then
      check_hex_integrity data.hex_info data.hex_length (median_hex_length batch)
    else []

/-- One entry of `all_comparisons` in `main.check_plagiarism`. -/
structure Comp where
  student1 : String
  student2 : String
  source_similarity : SrcSim
  hex_levenshtein : ℚ
  max_hex_sim : ℚ
  avg_score : ℚ
  deriving DecidableEq, Repr

/-- The pairwise scoring of `main.check_plagiarism` (lines 209-242): choose
the comparison texts by the `use_keil_compilation` flag, score the sources
only when both chosen texts are nonempty (Python truthiness of the strings),
score the hex payloads only when both are nonempty, and average the two
source metrics. -/
def computeComparison (use_keil_compilation : Bool) (d1 d2 : StudentData) : Comp :=
  let src1 := if use_keil_compilation then d1.asm_source else d1.source
  let src2 := if use_keil_compilation then d2.asm_source else d2.source
  let src_sim := if src1 ≠ "" ∧ src2 ≠ "" then calculate_combined_similarity src1 src2
                 else { token_seq := 0, levenshtein := 0 }
  let hex_lev := if d1.hex ≠ "" ∧ d2.hex ≠ "" then
                   calculate_levenshtein_similarity d1.hex d2.hex
                 else 0
  { student1 := d1.name
    student2 := d2.name
    source_similarity := src_sim
    hex_levenshtein := hex_lev
    max_hex_sim := hex_lev
    avg_score := (src_sim.token_seq + src_sim.levenshtein) / 2 }

/-- Threshold filter mode of `main.check_plagiarism` (lines 247-252):
keep a pair iff `max_hex_sim > hex_threshold or avg_score > src_threshold`. -/
def threshold_filter (hex_threshold src_threshold : ℚ)
    (all_comparisons : List Comp) : List Comp :=
  all_comparisons.filter fun comp =>
    decide (hex_threshold < comp.max_hex_sim) || decide (src_threshold < comp.avg_score)

/-- `get_sort_key` of `main.check_plagiarism` (lines 261-269): `avg_score`
and `levenshtein` are dispatched explicitly; the `top_metric in
comp['source_similarity']` test succeeds exactly for the remaining dict key
`token_seq`; anything else falls back to `avg_score`. -/
def get_sort_key (top_metric : String) (comp : Comp) : ℚ :=
  if top_metric = "avg_score" then comp.avg_score
  else if top_metric = "levenshtein" then comp.source_similarity.levenshtein
  else if top_metric = "token_seq" then comp.source_similarity.token_seq
  else comp.avg_score

/-- Top-percent filter mode of `main.check_plagiarism` (lines 254-272):
`top_n = int(total_pairs * top_percent)` raised to at least 1, then the
first `top_n` entries of the stable descending sort by the chosen metric. -/
def top_percent_filter (top_metric : String) (top_percent : ℚ)
    (all_comparisons : List Comp) : List Comp :=
  let total_pairs := all_comparisons.length
  let top_n := max 1 (pyInt ((total_pairs : ℚ) * top_percent)).toNat
  let sorted := stableSort
    (fun a b => decide (get_sort_key top_metric b ≤ get_sort_key top_metric a))
    all_comparisons
  sorted.take top_n

/-! ## llm_analyzer.py -/

/-- The dictionary returned by `llm_analyzer.analyze_pair_with_llm`,
restricted to the keys the verdict step of `main.check_plagiarism` reads.
`none` models an absent key.  (The `confidence_score` key that two of the
failure dictionaries also carry is never read and is not modelled.)  A
returned dictionary that is empty or lacks `is_plagiarized` is treated
identically by `main` (`if llm_result and 'is_plagiarized' in llm_result`),
so Python truthiness of the dict needs no separate model. -/
structure LLMDict where
  is_plagiarized : Option Bool
  reasoning : Option String
  deriving DecidableEq, Repr

/-- The ways an invocation of `llm_analyzer.analyze_pair_with_llm` can
conclude, covering every control path of the source: the reasoning library
is not importable; no API key is provided or found in the environment; the
transport/API raised (this also covers a second `json.loads` failure on an
extracted block, caught by the same outer handler); the response content
parsed as JSON directly; direct parsing failed but a `{...}` block was
extracted and parsed; or no such block exists in the content. -/
inductive LLMOutcome where
  | libMissing : LLMOutcome
  | noApiKey : LLMOutcome
  | apiError (msg : String) : LLMOutcome
  | parsedJson (d : LLMDict) : LLMOutcome
  | extractedJson (d : LLMDict) : LLMOutcome
  | noJson (content : String) : LLMOutcome
  deriving DecidableEq, Repr

/-- `llm_analyzer.analyze_pair_with_llm` as a function of its control-path
outcome.  The two code arguments only feed the prompt and never influence
which branch runs, so they are carried but unused.  On every failure path
the source returns a plain dictionary with `is_plagiarized: False` and an
explanatory `reasoning` string; it never raises. -/
def analyze_pair_with_llm (_code1 _code2 : String) (outcome : LLMOutcome) : LLMDict :=
  match outcome with
  | .libMissing =>
      { is_plagiarized := some false
        reasoning := some "Google Generative AI library not installed. Please run `pip install google-generativeai`." }
  | .noApiKey =>
      { is_plagiarized := some false
        reasoning := some "No API Key provided. Please set GEMINI_API_KEY environment variable." }
  | .apiError msg =>
      { is_plagiarized := some false
        reasoning := some ("LLM API Error: " ++ msg) }
  | .parsedJson d => d
  | .extractedJson d => d
  | .noJson content =>
      { is_plagiarized := some false
        reasoning := some ("Failed to parse LLM response: " ++ (content.take 100) ++ "...") }

/-! ## main.py: verdict rules -/

/-- Modelled from Python float formatting `f"{x:.2f}"`: two decimal places.
Python rounds the underlying binary double half-to-even; on the values at
stake here this agrees with ordinary rounding, which is used. -/
def fmt2 (q : ℚ) : String :=
  let n : ℤ := round (q * 100)
  let frac := (n % 100).toNat
  toString (n / 100) ++ "." ++ (if frac < 10 then "0" else "") ++ toString frac

/-- The verdict fields of one `result_entry` of `main.check_plagiarism`. -/
structure VerdictResult where
  final_verdict : String
  verdict_reason : String
  llm_triggered : Bool
  deriving DecidableEq, Repr

/-- Rules 1-3 of the verdict step of `main.check_plagiarism` (lines
283-310), before the illegal-submission override: definite match on a
perfect score; otherwise consult the LLM and use its result when the
returned dictionary carries `is_plagiarized`; otherwise the algorithmic
fallback `avg_score > 0.85` with a reason quoting both scores. -/
def verdict_pre (comp : Comp) (src1 src2 : String) (oracle : LLMOutcome) :
    VerdictResult :=
  if comp.max_hex_sim = 1 ∨ comp.avg_score = 1 then
    { final_verdict := "抄襲"
      verdict_reason := "Hex檔案或原始碼完全相同 (100%)"
      llm_triggered := false }
  else
    let llm_result := analyze_pair_with_llm src1 src2 oracle
    if llm_result.is_plagiarized.isSome then
      { final_verdict := if llm_result.is_plagiarized = some true then "抄襲" else "未抄襲"
        verdict_reason := "LLM分析: " ++ llm_result.reasoning.getD "N/A"
        llm_triggered := true }
    else
      { final_verdict := if (0.85 : ℚ) < comp.avg_score then "抄襲" else "未抄襲"
        verdict_reason := "LLM分析不可用 - 演算法分析: Hex=" ++ fmt2 comp.max_hex_sim
          ++ ", Source Avg=" ++ fmt2 comp.avg_score
        llm_triggered := true }

/-- The illegal-submission override of `main.check_plagiarism` (lines
313-321): applied after rules 1-3, only when the verdict is not `抄襲`. -/
def apply_illegal_override (comp : Comp) (illegal1 illegal2 : Bool)
    (v : VerdictResult) : VerdictResult :=
  if (illegal1 = true ∨ illegal2 = true) ∧ v.final_verdict ≠ "抄襲" then
    { final_verdict := "無效提交"
      verdict_reason := "無效提交: " ++ String.intercalate ", "
        ((if illegal1 then [comp.student1] else [])
          ++ (if illegal2 then [comp.student2] else []))
      llm_triggered := v.llm_triggered }
  else v

/-- The whole verdict step for one selected pair. -/
def analyze_verdict (comp : Comp) (src1 src2 : String) (oracle : LLMOutcome)
    (illegal1 illegal2 : Bool) : VerdictResult :=
  apply_illegal_override comp illegal1 illegal2 (verdict_pre comp src1 src2 oracle)

/-! ## Final ordering: main.py line 371 and reporter.py lines 319-331 -/

/-- One entry of the `results` list, restricted to the two fields the two
sorting steps read (`avg_score` from the comparison, `final_verdict` from
the verdict step). -/
structure REntry where
  final_verdict : String
  avg_score : ℚ
  deriving DecidableEq, Repr

/-- `main.check_plagiarism` line 371:
`results.sort(key=lambda x: x['avg_score'], reverse=True)` — a stable
descending sort by average score. -/
def results_sort (results : List REntry) : List REntry :=
  stableSort (fun a b => decide (b.avg_score ≤ a.avg_score)) results

/-- `reporter.verdict_priority` (reporter.py lines 319-328). -/
def verdict_priority (res : REntry) : Nat :=
  if res.final_verdict = "抄襲" then 0
  else if res.final_verdict = "無效提交" then 1
  else if res.final_verdict = "未抄襲" then 2
  else 3

/-- `reporter.generate_html_report` line 331:
`sorted_results = sorted(results, key=verdict_priority)` — a stable
ascending sort by verdict priority. -/
def reporter_sort (results : List REntry) : List REntry :=
  stableSort (fun a b => decide (verdict_priority a ≤ verdict_priority b)) results

/-- The ordering the pipeline gives the final results list: the score sort
of `main` followed by the priority sort of `reporter`. -/
def final_ordering (results : List REntry) : List REntry :=
  reporter_sort (results_sort results)

/-! ## Helper lemmas -/

theorem pairwise_and {α : Type _} {R S : α → α → Prop} :
    ∀ {l : List α}, l.Pairwise R → l.Pairwise S →
      l.Pairwise fun a b => R a b ∧ S a b
  | [], _, _ => List.Pairwise.nil
  | a :: as, hR, hS => by
      rcases List.pairwise_cons.mp hR with ⟨hRa, hRas⟩
      rcases List.pairwise_cons.mp hS with ⟨hSa, hSas⟩
      exact List.pairwise_cons.mpr
        ⟨fun y hy => ⟨hRa y hy, hSa y hy⟩, pairwise_and hRas hSas⟩

theorem token_seq_symm (x y : String) :
    calculate_token_sequence_similarity x y = calculate_token_sequence_similarity y x := by
  unfold calculate_token_sequence_similarity
  by_cases hx : x = "" <;> by_cases hy : y = "" <;>
    simp only [hx, hy, true_and, and_true, false_and, and_false, true_or, or_true,
      false_or, or_false, if_true, if_false]
  by_cases tx : tokenize_code x = [] <;> by_cases ty : tokenize_code y = [] <;>
    simp only [tx, ty, true_and, and_true, false_and, and_false, true_or, or_true,
      false_or, or_false, if_true, if_false]
  rw [lcs_length_symm, Nat.add_comm (tokenize_code x).length]

theorem levenshtein_sim_symm (x y : String) :
    calculate_levenshtein_similarity x y = calculate_levenshtein_similarity y x := by
  unfold calculate_levenshtein_similarity
  by_cases hx : x = "" <;> by_cases hy : y = "" <;>
    simp only [hx, hy, true_and, and_true, false_and, and_false, true_or, or_true,
      false_or, or_false, if_true, if_false]
  exact levenshtein_ratio_symm x y

/-! ## Claim theorems -/

/-- C6: all three scoring functions are symmetric: the token-sequence score,
the edit-distance score, and every score field of a pair comparison
(including the hex score) are unchanged when the two arguments, respectively
the two students, are swapped. -/
theorem scoring_symmetric :
    (∀ x y : String,
        calculate_token_sequence_similarity x y = calculate_token_sequence_similarity y x) ∧
    (∀ x y : String,
        calculate_levenshtein_similarity x y = calculate_levenshtein_similarity y x) ∧
    (∀ (use_keil : Bool) (d1 d2 : StudentData),
        (computeComparison use_keil d1 d2).source_similarity
            = (computeComparison use_keil d2 d1).source_similarity ∧
        (computeComparison use_keil d1 d2).hex_levenshtein
            = (computeComparison use_keil d2 d1).hex_levenshtein ∧
        (computeComparison use_keil d1 d2).max_hex_sim
            = (computeComparison use_keil d2 d1).max_hex_sim ∧
        (computeComparison use_keil d1 d2).avg_score
            = (computeComparison use_keil d2 d1).avg_score) := by
  refine ⟨token_seq_symm, levenshtein_sim_symm, ?_⟩
  intro use_keil d1 d2
  have hsim : ∀ a b : String, calculate_combined_similarity a b = calculate_combined_similarity b a := by
    intro a b
    unfold calculate_combined_similarity
    rw [token_seq_symm, levenshtein_sim_symm]
  have hhex := levenshtein_sim_symm d1.hex d2.hex
  unfold computeComparison
  by_cases hsrc : (if use_keil then d1.asm_source else d1.source) ≠ "" ∧
      (if use_keil then d2.asm_source else d2.source) ≠ "" <;>
    by_cases hhx : d1.hex ≠ "" ∧ d2.hex ≠ "" <;>
      simp only [hsrc, hhx, and_comm, if_true, if_false] <;>
      constructor <;>
      simp [hsim, hhex, and_comm]

/-- C10: the oracle helper is total over its control paths, and on every
failure mode — reasoning library not installed, missing API key,
transport/API exception, response with no extractable JSON object — it
returns a dictionary carrying `is_plagiarized = False`; at the verdict step
such a result yields the same verdict as a genuine well-formed
not-plagiarized judgement. -/
theorem oracle_failures_masked_as_not_plagiarized :
    (∀ c1 c2 : String,
        (analyze_pair_with_llm c1 c2 .libMissing).is_plagiarized = some false) ∧
    (∀ c1 c2 : String,
        (analyze_pair_with_llm c1 c2 .noApiKey).is_plagiarized = some false) ∧
    (∀ (c1 c2 msg : String),
        (analyze_pair_with_llm c1 c2 (.apiError msg)).is_plagiarized = some false) ∧
    (∀ (c1 c2 content : String),
        (analyze_pair_with_llm c1 c2 (.noJson content)).is_plagiarized = some false) ∧
    (∀ (comp : Comp) (s1 s2 r : String),
        (verdict_pre comp s1 s2 .libMissing).final_verdict
            = (verdict_pre comp s1 s2 (.parsedJson ⟨some false, some r⟩)).final_verdict ∧
        (verdict_pre comp s1 s2 .noApiKey).final_verdict
            = (verdict_pre comp s1 s2 (.parsedJson ⟨some false, some r⟩)).final_verdict ∧
        (∀ msg, (verdict_pre comp s1 s2 (.apiError msg)).final_verdict
            = (verdict_pre comp s1 s2 (.parsedJson ⟨some false, some r⟩)).final_verdict) ∧
        (∀ content, (verdict_pre comp s1 s2 (.noJson content)).final_verdict
            = (verdict_pre comp s1 s2 (.parsedJson ⟨some false, some r⟩)).final_verdict)) := by
  refine ⟨fun _ _ => rfl, fun _ _ => rfl, fun _ _ _ => rfl, fun _ _ _ => rfl, ?_⟩
  intro comp s1 s2 r
  by_cases hdef : comp.max_hex_sim = 1 ∨ comp.avg_score = 1 <;>
    simp [verdict_pre, analyze_pair_with_llm, hdef]

/-- C7: in threshold mode a scored pair is kept iff
`hex_score > hex_threshold` or `avg_score > src_threshold`, with strict
inequalities; with thresholds 0.7/0.8 a pair with `hex_score = 0.7` and
`avg_score = 0.79` is excluded and a pair with `hex_score = 0.71` is
included. -/
theorem threshold_mode_strict_selection :
    (∀ (hex_threshold src_threshold : ℚ) (comps : List Comp) (comp : Comp),
        comp ∈ threshold_filter hex_threshold src_threshold comps ↔
          comp ∈ comps ∧
            (hex_threshold < comp.max_hex_sim ∨ src_threshold < comp.avg_score)) ∧
    threshold_filter 0.7 0.8
        [{ student1 := "A", student2 := "B",
           source_similarity := { token_seq := 0.79, levenshtein := 0.79 },
           hex_levenshtein := 0.7, max_hex_sim := 0.7, avg_score := 0.79 }] = [] ∧
    threshold_filter 0.7 0.8
        [{ student1 := "A", student2 := "B",
           source_similarity := { token_seq := 0.79, levenshtein := 0.79 },
           hex_levenshtein := 0.71, max_hex_sim := 0.71, avg_score := 0.79 }]
      = [{ student1 := "A", student2 := "B",
           source_similarity := { token_seq := 0.79, levenshtein := 0.79 },
           hex_levenshtein := 0.71, max_hex_sim := 0.71, avg_score := 0.79 }] := by
  refine ⟨?_, by norm_num [threshold_filter, List.filter], by norm_num [threshold_filter, List.filter]⟩
  intro hex_threshold src_threshold comps comp
  simp [threshold_filter, List.mem_filter, decide_eq_true_eq, Bool.or_eq_true]

/-- C2: after the score sort of `main` and the stable verdict-priority sort
of `reporter`, the final results list is ordered with outcome priority as
the primary key (Plagiarized, then InvalidSubmission, then NotPlagiarized,
then anything else i.e. Unknown) and the prior score-descending order as the
secondary key, and it is a permutation of the input. -/
theorem final_ordering_by_priority_then_score (results : List REntry) :
    (final_ordering results).Pairwise
      (fun a b => verdict_priority a ≤ verdict_priority b ∧
        (verdict_priority a = verdict_priority b → b.avg_score ≤ a.avg_score)) ∧
    List.Perm (final_ordering results) results := by
  constructor
  · have htotS : ∀ x y : REntry,
        decide (y.avg_score ≤ x.avg_score) = true ∨ decide (x.avg_score ≤ y.avg_score) = true := by
      intro x y
      simp only [decide_eq_true_eq]
      exact (le_total _ _).symm
    have htransS : ∀ x y z : REntry,
        decide (y.avg_score ≤ x.avg_score) = true →
        decide (z.avg_score ≤ y.avg_score) = true →
        decide (z.avg_score ≤ x.avg_score) = true := by
      intro x y z
      simp only [decide_eq_true_eq]
      exact fun h1 h2 => le_trans h2 h1
    have htotP : ∀ x y : REntry,
        decide (verdict_priority x ≤ verdict_priority y) = true ∨
          decide (verdict_priority y ≤ verdict_priority x) = true := by
      intro x y
      simp only [decide_eq_true_eq]
      exact Nat.le_total _ _
    have htransP : ∀ x y z : REntry,
        decide (verdict_priority x ≤ verdict_priority y) = true →
        decide (verdict_priority y ≤ verdict_priority z) = true →
        decide (verdict_priority x ≤ verdict_priority z) = true := by
      intro x y z
      simp only [decide_eq_true_eq]
      exact Nat.le_trans
    have hS : (results_sort results).Pairwise (fun a b => b.avg_score ≤ a.avg_score) := by
      have := pairwise_stableSort
        (fun a b : REntry => decide (b.avg_score ≤ a.avg_score)) htotS htransS results
      exact this.imp (by intro a b h; exact of_decide_eq_true h)
    have hP : (final_ordering results).Pairwise
        (fun a b => verdict_priority a ≤ verdict_priority b) := by
      have := pairwise_stableSort
        (fun a b : REntry => decide (verdict_priority a ≤ verdict_priority b))
        htotP htransP (results_sort results)
      exact this.imp (by intro a b h; exact of_decide_eq_true h)
    have hStab := pairwise_stableSort_stable
      (fun a b : REntry => decide (verdict_priority a ≤ verdict_priority b))
      htotP (results_sort results) hS
    refine (pairwise_and hP hStab).imp ?_
    intro a b hab
    refine ⟨hab.1, fun hpe => ?_⟩
    rcases hab.2 with hS' | ⟨_, hnotba⟩
    · exact hS'
    · exact absurd (decide_eq_true (hpe ▸ le_refl _)) hnotba
  · exact (stableSort_perm _ _).trans (stableSort_perm _ _)

/-- C9: after the verdict rules, if either participant of a pair is flagged
illegal and the current outcome is not `抄襲` (Plagiarized), the outcome
becomes `無效提交` (InvalidSubmission) with a reason listing the illegal
participant(s); a `抄襲` outcome is never overridden. -/
theorem illegal_override_rules (comp : Comp) (src1 src2 : String)
    (oracle : LLMOutcome) (illegal1 illegal2 : Bool) :
    ((illegal1 = true ∨ illegal2 = true) →
      (verdict_pre comp src1 src2 oracle).final_verdict ≠ "抄襲" →
      (analyze_verdict comp src1 src2 oracle illegal1 illegal2).final_verdict = "無效提交" ∧
      (analyze_verdict comp src1 src2 oracle illegal1 illegal2).verdict_reason
        = "無效提交: " ++ String.intercalate ", "
            ((if illegal1 then [comp.student1] else [])
              ++ (if illegal2 then [comp.student2] else []))) ∧
    ((verdict_pre comp src1 src2 oracle).final_verdict = "抄襲" →
      analyze_verdict comp src1 src2 oracle illegal1 illegal2
        = verdict_pre comp src1 src2 oracle) := by
  constructor
  · intro hill hnot
    unfold analyze_verdict apply_illegal_override
    rw [if_pos ⟨hill, hnot⟩]
    exact ⟨rfl, rfl⟩
  · intro hpl
    unfold analyze_verdict apply_illegal_override
    rw [if_neg]
    intro hcon
    exact hcon.2 hpl

/-- Witness for C9 at a concrete input: a pair with zero scores, an
unavailable oracle, and an illegal first participant. -/
theorem illegal_override_rules_witness :
    (analyze_verdict
        { student1 := "A", student2 := "B",
          source_similarity := { token_seq := 0, levenshtein := 0 },
          hex_levenshtein := 0, max_hex_sim := 0, avg_score := 0 }
        "" "" .noApiKey true false).final_verdict = "無效提交" ∧
    (analyze_verdict
        { student1 := "A", student2 := "B",
          source_similarity := { token_seq := 0, levenshtein := 0 },
          hex_levenshtein := 0, max_hex_sim := 0, avg_score := 0 }
        "" "" .noApiKey true false).verdict_reason
      = "無效提交: " ++ String.intercalate ", "
          ((if true then ["A"] else []) ++ (if false then ["B"] else [])) :=
  (illegal_override_rules
      { student1 := "A", student2 := "B",
        source_similarity := { token_seq := 0, levenshtein := 0 },
        hex_levenshtein := 0, max_hex_sim := 0, avg_score := 0 }
      "" "" .noApiKey true false).1 (Or.inl rfl)
    (by simp [verdict_pre, analyze_pair_with_llm])

/-- C5 counterexample: for `text1 = " "` and `text2 = ""` both token
sequences are empty (and identical), yet the similarity is 0, not 1: the
guard on the raw strings fires before the token-sequence guards. -/
theorem token_seq_both_empty_counterexample :
    tokenize_code " " = ([] : List String) ∧
    tokenize_code "" = ([] : List String) ∧
    calculate_token_sequence_similarity " " "" = 0 ∧
    (0 : ℚ) ≠ 1 := by
  have hne : ((" " : String) = "") ↔ False := iff_false_intro (by decide)
  refine ⟨by decide, by decide, ?_, by norm_num⟩
  simp [calculate_token_sequence_similarity, hne]

/-- C5 amended: the token-sequence similarity always lies in [0,1]; it is
1.0 when both texts are empty, and more generally when both token sequences
are empty and the two texts agree on emptiness; it is 0.0 when exactly one
token sequence is empty; and it equals 1.0 iff the two token sequences are
identical and the two texts are both empty or both nonempty (when exactly
one text is empty the similarity is 0 even though both token sequences may
be empty and identical). -/
theorem token_seq_similarity_props (t1 t2 : String) :
    (0 ≤ calculate_token_sequence_similarity t1 t2 ∧
      calculate_token_sequence_similarity t1 t2 ≤ 1) ∧
    (t1 = "" ∧ t2 = "" → calculate_token_sequence_similarity t1 t2 = 1) ∧
    ((t1 = "" ↔ t2 = "") → tokenize_code t1 = [] → tokenize_code t2 = [] →
      calculate_token_sequence_similarity t1 t2 = 1) ∧
    (¬ (tokenize_code t1 = [] ↔ tokenize_code t2 = []) →
      calculate_token_sequence_similarity t1 t2 = 0) ∧
    (calculate_token_sequence_similarity t1 t2 = 1 ↔
      (tokenize_code t1 = tokenize_code t2 ∧ (t1 = "" ↔ t2 = ""))) := by
  by_cases h1 : t1 = "" <;> by_cases h2 : t2 = ""
  · subst h1; subst h2
    simp [calculate_token_sequence_similarity, tokenize_code]
  · have ht1 : tokenize_code t1 = [] := by simp [tokenize_code, h1]
    simp [calculate_token_sequence_similarity, h1, h2, ht1]
  · have ht2 : tokenize_code t2 = [] := by simp [tokenize_code, h2]
    simp [calculate_token_sequence_similarity, h1, h2, ht2]
  · by_cases e1 : tokenize_code t1 = [] <;> by_cases e2 : tokenize_code t2 = []
    · simp [calculate_token_sequence_similarity, e1, e2, h1, h2]
    · simp [calculate_token_sequence_similarity, e1, e2, h1, h2]
    · simp [calculate_token_sequence_similarity, e1, e2, h1, h2]
    · have hm : 0 < (tokenize_code t1).length := List.length_pos.mpr e1
      have hn : 0 < (tokenize_code t2).length := List.length_pos.mpr e2
      have htot : 0 < (tokenize_code t1).length + (tokenize_code t2).length := by omega
      have hle1 := lcs_length_le_left (tokenize_code t1) (tokenize_code t2)
      have hle2 := lcs_length_le_right (tokenize_code t1) (tokenize_code t2)
      have htotQ : (0 : ℚ) <
          (((tokenize_code t1).length + (tokenize_code t2).length : Nat) : ℚ) := by
        exact_mod_cast htot
      have hscore : calculate_token_sequence_similarity t1 t2 =
          2 * ((lcs_length (tokenize_code t1) (tokenize_code t2) : Nat) : ℚ) /
            (((tokenize_code t1).length + (tokenize_code t2).length : Nat) : ℚ) := by
        simp only [calculate_token_sequence_similarity, h1, h2, e1, e2, false_and,
          and_false, false_or, or_false, if_false, htot, if_true]
      have hiff : (t1 = "" ↔ t2 = "") := iff_of_false h1 h2
      refine ⟨⟨?_, ?_⟩, fun hcon => absurd hcon.1 h1,
        fun _ hcon _ => absurd hcon e1,
        fun hx => absurd (iff_of_false e1 e2) hx, ?_⟩
      · rw [hscore]; positivity
      · rw [hscore, div_le_one htotQ]
        have h2le : 2 * lcs_length (tokenize_code t1) (tokenize_code t2) ≤
            (tokenize_code t1).length + (tokenize_code t2).length := by omega
        exact_mod_cast h2le
      · rw [hscore, div_eq_one_iff_eq (ne_of_gt htotQ)]
        simp only [iff_true_intro hiff, and_true]
        constructor
        · intro heq
          have heqN : 2 * lcs_length (tokenize_code t1) (tokenize_code t2) =
              (tokenize_code t1).length + (tokenize_code t2).length := by
            exact_mod_cast heq
          exact lcs_length_eq_of_full _ _ (by omega) (by omega)
        · intro heq
          rw [heq, lcs_length_self]
          push_cast
          ring

/-- Witness for C5 at a concrete input: a nonempty text compared with
itself has identical token sequences and similarity 1. -/
theorem token_seq_similarity_props_witness :
    calculate_token_sequence_similarity "mov a, #55h" "mov a, #55h" = 1 :=
  ((token_seq_similarity_props "mov a, #55h" "mov a, #55h").2.2.2.2).mpr ⟨rfl, Iff.rfl⟩

/-- C4 counterexample: when both hex payloads are empty the pair's hex score
is 0, not 1 — the `if hex1 and hex2` guard of `main` skips the similarity
call and keeps the initial 0 (an empty payload also marks the student an
illegal submission, but scoring still runs). -/
theorem hex_score_both_empty_counterexample :
    (computeComparison false
      { name := "A", source := "", asm_source := "", original_source := "",
        hex := "", hex_length := 0, hex_info := ⟨false, [], 0, 0⟩,
        illegal_submission := true, illegal_reason := "" }
      { name := "B", source := "", asm_source := "", original_source := "",
        hex := "", hex_length := 0, hex_info := ⟨false, [], 0, 0⟩,
        illegal_submission := true, illegal_reason := "" }).max_hex_sim = 0 ∧
    (0 : ℚ) ≠ 1 := by
  refine ⟨?_, by norm_num⟩
  simp [computeComparison]

/-- C4 amended: the pair's hex score is 0 whenever either normalized hex
payload is empty — including when both are — and equals the §4.2
edit-distance similarity of the two payloads when both are nonempty; the
source scores are likewise 0,0 when either chosen comparison text is empty
and are the §4.1/§4.2 scores of the chosen texts when both are nonempty;
the average score is always the mean of the two source scores. -/
theorem pair_scores_empty_rules (use_keil : Bool) (d1 d2 : StudentData) :
    (d1.hex = "" ∨ d2.hex = "" → (computeComparison use_keil d1 d2).max_hex_sim = 0) ∧
    (d1.hex ≠ "" → d2.hex ≠ "" →
      (computeComparison use_keil d1 d2).max_hex_sim
        = calculate_levenshtein_similarity d1.hex d2.hex) ∧
    ((if use_keil then d1.asm_source else d1.source) = "" ∨
        (if use_keil then d2.asm_source else d2.source) = "" →
      (computeComparison use_keil d1 d2).source_similarity = ⟨0, 0⟩) ∧
    ((if use_keil then d1.asm_source else d1.source) ≠ "" →
      (if use_keil then d2.asm_source else d2.source) ≠ "" →
      (computeComparison use_keil d1 d2).source_similarity
        = calculate_combined_similarity
            (if use_keil then d1.asm_source else d1.source)
            (if use_keil then d2.asm_source else d2.source)) ∧
    (computeComparison use_keil d1 d2).avg_score
      = ((computeComparison use_keil d1 d2).source_similarity.token_seq
          + (computeComparison use_keil d1 d2).source_similarity.levenshtein) / 2 := by
  refine ⟨?_, ?_, ?_, ?_, ?_⟩
  · intro h
    have hcon : ¬ (d1.hex ≠ "" ∧ d2.hex ≠ "") := by
      rcases h with h | h <;> simp [h]
    simp [computeComparison, hcon]
  · intro ha hb
    simp [computeComparison, ha, hb]
  · intro h
    have hcon : ¬ ((if use_keil then d1.asm_source else d1.source) ≠ "" ∧
        (if use_keil then d2.asm_source else d2.source) ≠ "") := by
      rcases h with h | h <;> simp [h]
    simp [computeComparison, hcon]
  · intro ha hb
    simp [computeComparison, ha, hb]
  · by_cases hsrc : (if use_keil then d1.asm_source else d1.source) ≠ "" ∧
        (if use_keil then d2.asm_source else d2.source) ≠ "" <;>
      simp [computeComparison, hsrc]

/-- Witness for C4 at a concrete input: an empty first payload forces hex
score 0, and two nonempty payloads take the §4.2 similarity. -/
theorem pair_scores_empty_rules_witness :
    (computeComparison false
      { name := "A", source := "s", asm_source := "", original_source := "",
        hex := "", hex_length := 0, hex_info := ⟨false, [], 0, 0⟩,
        illegal_submission := true, illegal_reason := "" }
      { name := "B", source := "s", asm_source := "", original_source := "",
        hex := "ff", hex_length := 2, hex_info := ⟨true, [], 1, 2⟩,
        illegal_submission := false, illegal_reason := "" }).max_hex_sim = 0 ∧
    (computeComparison false
      { name := "A", source := "s", asm_source := "", original_source := "",
        hex := "ff", hex_length := 2, hex_info := ⟨true, [], 1, 2⟩,
        illegal_submission := false, illegal_reason := "" }
      { name := "B", source := "s", asm_source := "", original_source := "",
        hex := "ff", hex_length := 2, hex_info := ⟨true, [], 1, 2⟩,
        illegal_submission := false, illegal_reason := "" }).max_hex_sim
      = calculate_levenshtein_similarity "ff" "ff" :=
  ⟨(pair_scores_empty_rules false
      { name := "A", source := "s", asm_source := "", original_source := "",
        hex := "", hex_length := 0, hex_info := ⟨false, [], 0, 0⟩,
        illegal_submission := true, illegal_reason := "" }
      { name := "B", source := "s", asm_source := "", original_source := "",
        hex := "ff", hex_length := 2, hex_info := ⟨true, [], 1, 2⟩,
        illegal_submission := false, illegal_reason := "" }).1 (Or.inl rfl),
   (pair_scores_empty_rules false
      { name := "A", source := "s", asm_source := "", original_source := "",
        hex := "ff", hex_length := 2, hex_info := ⟨true, [], 1, 2⟩,
        illegal_submission := false, illegal_reason := "" }
      { name := "B", source := "s", asm_source := "", original_source := "",
        hex := "ff", hex_length := 2, hex_info := ⟨true, [], 1, 2⟩,
        illegal_submission := false, illegal_reason := "" }).2.1 (by decide) (by decide)⟩

/-- C3 counterexample: in a batch with one zero-length student and one
student of length 100, the zero-length student's assigned hex-anomaly list
is empty, although evaluating the hex checks at that student's data (as the
claim mandates) yields a nonempty list (`NO_EOF` at least, and
`INSUFFICIENT_DATA` since 0 < 20): the loop guard `if data['hex_length'] > 0`
skips zero-length students entirely. -/
theorem zero_length_skipped_counterexample :
    (assign_hex_anomalies
      [{ name := "S0", source := "", asm_source := "", original_source := "",
         hex := "", hex_length := 0, hex_info := ⟨false, [], 0, 0⟩,
         illegal_submission := true, illegal_reason := "" },
       { name := "S1", source := "", asm_source := "", original_source := "",
         hex := String.mk (List.replicate 100 'a'), hex_length := 100,
         hex_info := ⟨true, [], 5, 100⟩,
         illegal_submission := false, illegal_reason := "" }]).getD 0 [] = [] ∧
    check_hex_integrity ⟨false, [], 0, 0⟩ 0
      (median_hex_length
        [{ name := "S0", source := "", asm_source := "", original_source := "",
           hex := "", hex_length := 0, hex_info := ⟨false, [], 0, 0⟩,
           illegal_submission := true, illegal_reason := "" },
         { name := "S1", source := "", asm_source := "", original_source := "",
           hex := String.mk (List.replicate 100 'a'), hex_length := 100,
           hex_info := ⟨true, [], 5, 100⟩,
           illegal_submission := false, illegal_reason := "" }]) ≠ [] := by
  constructor
  · simp [assign_hex_anomalies]
  · simp [check_hex_integrity]

/-- C3 amended: the hex-anomaly phase evaluates `check_hex_integrity` (the
NO_EOF / FORMAT_ERRORS / SHORT_LENGTH / LONG_LENGTH / INSUFFICIENT_DATA
checks) against the batch median exactly for the students with positive
`hex_length`; a zero-length student is excluded both from the median and
from anomaly evaluation, keeping an empty anomaly list (such a student is
flagged as an illegal submission earlier instead). -/
theorem hex_anomaly_assignment (batch : List StudentData) (s : StudentData) :
    (assign_hex_anomalies batch = batch.map fun d =>
      if 0 < d.hex_length then
        check_hex_integrity d.hex_info d.hex_length (median_hex_length batch)
      else []) ∧
    (s.hex_length = 0 → median_hex_length (s :: batch) = median_hex_length batch) ∧
    (s.hex_length = 0 → (assign_hex_anomalies (s :: batch)).getD 0 [] = []) ∧
    (0 < s.hex_length → (assign_hex_anomalies (s :: batch)).getD 0 []
      = check_hex_integrity s.hex_info s.hex_length (median_hex_length (s :: batch))) := by
  refine ⟨rfl, ?_, ?_, ?_⟩
  · intro hs
    simp [median_hex_length, List.filter_cons, hs]
  · intro hs
    simp [assign_hex_anomalies, hs]
  · intro hs
    simp [assign_hex_anomalies, hs]

/-- Witness for C3 at a concrete input: prepending a zero-length student
leaves the batch median unchanged, and that student's assigned anomaly list
is empty. -/
theorem hex_anomaly_assignment_witness :
    median_hex_length
        ({ name := "S0", source := "", asm_source := "", original_source := "",
           hex := "", hex_length := 0, hex_info := ⟨false, [], 0, 0⟩,
           illegal_submission := true, illegal_reason := "" } :: []) = median_hex_length [] ∧
    (assign_hex_anomalies
        ({ name := "S0", source := "", asm_source := "", original_source := "",
           hex := "", hex_length := 0, hex_info := ⟨false, [], 0, 0⟩,
           illegal_submission := true, illegal_reason := "" } :: [])).getD 0 [] = [] :=
  ⟨(hex_anomaly_assignment []
      { name := "S0", source := "", asm_source := "", original_source := "",
        hex := "", hex_length := 0, hex_info := ⟨false, [], 0, 0⟩,
        illegal_submission := true, illegal_reason := "" }).2.1 rfl,
   (hex_anomaly_assignment []
      { name := "S0", source := "", asm_source := "", original_source := "",
        hex := "", hex_length := 0, hex_info := ⟨false, [], 0, 0⟩,
        illegal_submission := true, illegal_reason := "" }).2.2.1 rfl⟩

/-- C8 counterexample: with an empty comparison list, top-percent mode
selects 0 pairs while the claimed count `max(1, floor(0 · 0.05)) = 1` is
nonzero — "the count is never 0" fails on an empty batch. -/
theorem top_percent_empty_counterexample :
    (top_percent_filter "avg_score" 0.05 []).length = 0 ∧
    max 1 (pyInt ((0 : ℚ) * 0.05)).toNat = 1 := by
  constructor
  · simp [top_percent_filter, stableSort]
  · norm_num [pyInt]

/-- C8 amended: when at least one pair exists and `0 ≤ percent ≤ 1`,
top-percent mode selects exactly `max(1, int(total_pairs · percent))` pairs
(never 0): the first ones of the stable descending sort by the configured
metric; the sort is descending in the metric, and ties keep any relation the
input order satisfied (stability).  With no pairs, nothing is selected
(see the counterexample). -/
theorem top_percent_selection (top_metric : String) (top_percent : ℚ)
    (comps : List Comp) (hne : comps ≠ []) (h0 : 0 ≤ top_percent)
    (h1 : top_percent ≤ 1) :
    (top_percent_filter top_metric top_percent comps).length
        = max 1 (pyInt ((comps.length : ℚ) * top_percent)).toNat ∧
    1 ≤ (top_percent_filter top_metric top_percent comps).length ∧
    top_percent_filter top_metric top_percent comps
      = (stableSort
          (fun a b => decide (get_sort_key top_metric b ≤ get_sort_key top_metric a))
          comps).take (max 1 (pyInt ((comps.length : ℚ) * top_percent)).toNat) ∧
    (stableSort
        (fun a b => decide (get_sort_key top_metric b ≤ get_sort_key top_metric a))
        comps).Pairwise
      (fun a b => get_sort_key top_metric b ≤ get_sort_key top_metric a) ∧
    (∀ R : Comp → Comp → Prop, comps.Pairwise R →
      (stableSort
          (fun a b => decide (get_sort_key top_metric b ≤ get_sort_key top_metric a))
          comps).Pairwise
        (fun a b => R a b ∨ get_sort_key top_metric b < get_sort_key top_metric a)) := by
  have htot : ∀ x y : Comp,
      decide (get_sort_key top_metric y ≤ get_sort_key top_metric x) = true ∨
      decide (get_sort_key top_metric x ≤ get_sort_key top_metric y) = true := by
    intro x y
    simp only [decide_eq_true_eq]
    exact (le_total _ _).symm
  have htrans : ∀ x y z : Comp,
      decide (get_sort_key top_metric y ≤ get_sort_key top_metric x) = true →
      decide (get_sort_key top_metric z ≤ get_sort_key top_metric y) = true →
      decide (get_sort_key top_metric z ≤ get_sort_key top_metric x) = true := by
    intro x y z
    simp only [decide_eq_true_eq]
    exact fun hxy hyz => le_trans hyz hxy
  have hlen1 : 1 ≤ comps.length := List.length_pos.mpr hne
  have htopn : max 1 (pyInt ((comps.length : ℚ) * top_percent)).toNat ≤ comps.length := by
    have hq0 : (0 : ℚ) ≤ (comps.length : ℚ) * top_percent :=
      mul_nonneg (Nat.cast_nonneg _) h0
    have hple : (comps.length : ℚ) * top_percent ≤ ((comps.length : Nat) : ℚ) :=
      mul_le_of_le_one_right (Nat.cast_nonneg _) h1
    have hfle : pyInt ((comps.length : ℚ) * top_percent) ≤ (comps.length : ℤ) := by
      unfold pyInt
      rw [if_neg (not_lt.mpr hq0)]
      calc ⌊(comps.length : ℚ) * top_percent⌋ ≤ ⌊((comps.length : Nat) : ℚ)⌋ :=
            Int.floor_le_floor hple
        _ = (comps.length : ℤ) := Int.floor_natCast _
    have := Int.toNat_le_toNat hfle
    simp only [Int.toNat_natCast] at this
    omega
  have hslen : (stableSort
      (fun a b => decide (get_sort_key top_metric b ≤ get_sort_key top_metric a))
      comps).length = comps.length :=
    (stableSort_perm _ comps).length_eq
  refine ⟨?_, ?_, rfl, ?_, ?_⟩
  · show ((stableSort _ comps).take _).length = _
    rw [List.length_take, hslen]
    omega
  · show 1 ≤ ((stableSort _ comps).take _).length
    rw [List.length_take, hslen]
    omega
  · exact (pairwise_stableSort _ htot htrans comps).imp
      (by intro a b h; exact of_decide_eq_true h)
  · intro R hR
    refine (pairwise_stableSort_stable _ htot comps hR).imp ?_
    intro a b hab
    rcases hab with hab | ⟨hle, hnle⟩
    · exact Or.inl hab
    · refine Or.inr (lt_of_le_not_le (of_decide_eq_true hle) ?_)
      intro hc
      exact hnle (decide_eq_true hc)

/-- Witness for C8 at a concrete input: 40 pairs and `percent = 0.05`
select exactly 2 pairs. -/
theorem top_percent_selection_witness :
    (top_percent_filter "avg_score" 0.05
        (List.replicate 40
          { student1 := "A", student2 := "B",
            source_similarity := { token_seq := 0, levenshtein := 0 },
            hex_levenshtein := 0, max_hex_sim := 0, avg_score := 0 })).length = 2 ∧
    1 ≤ (top_percent_filter "avg_score" 0.05
        (List.replicate 40
          { student1 := "A", student2 := "B",
            source_similarity := { token_seq := 0, levenshtein := 0 },
            hex_levenshtein := 0, max_hex_sim := 0, avg_score := 0 })).length := by
  have h := top_percent_selection "avg_score" 0.05
    (List.replicate 40
      { student1 := "A", student2 := "B",
        source_similarity := { token_seq := 0, levenshtein := 0 },
        hex_levenshtein := 0, max_hex_sim := 0, avg_score := 0 })
    (by simp) (by norm_num) (by norm_num)
  have hmax : max 1 (pyInt (((List.replicate 40
      { student1 := "A", student2 := "B",
        source_similarity := { token_seq := (0:ℚ), levenshtein := 0 },
        hex_levenshtein := 0, max_hex_sim := 0, avg_score := 0 } : List Comp).length : ℚ)
      * 0.05)).toNat = 2 := by
    norm_num [pyInt]
    rfl
  exact ⟨hmax ▸ h.1, h.2.1⟩

/-- C1 counterexample: with the oracle unavailable (no API key) and
`avg_score = 0.9 > 0.85`, the claim mandates the Plagiarized fallback, but
the helper masks the failure as a well-formed `is_plagiarized: False`
dictionary, so the verdict is `未抄襲` (NotPlagiarized) through the oracle
path and the `avg_score > 0.85` fallback never runs. -/
theorem oracle_fallback_counterexample :
    (0.85 : ℚ) < 0.9 ∧
    (verdict_pre
      { student1 := "A", student2 := "B",
        source_similarity := { token_seq := 0.9, levenshtein := 0.9 },
        hex_levenshtein := 0.5, max_hex_sim := 0.5, avg_score := 0.9 }
      "" "" .noApiKey).final_verdict = "未抄襲" ∧
    ("未抄襲" : String) ≠ "抄襲" := by
  refine ⟨by norm_num, ?_, by decide⟩
  have hdef : ¬ ((0.5 : ℚ) = 1 ∨ (0.9 : ℚ) = 1) := by norm_num
  simp [verdict_pre, analyze_pair_with_llm, hdef]

/-- C1 amended: for a non-definite pair, the algorithmic fallback
(`Plagiarized iff avg_score > 0.85`, reason quoting both numeric scores)
runs exactly when the helper's returned dictionary lacks the
`is_plagiarized` key, which happens only when a JSON object extracted from
the oracle reply omits that key; when the oracle is unavailable, times out,
errors, or returns content with no JSON object, the helper returns a
masked `is_plagiarized: False` dictionary and the verdict is `未抄襲`
through the oracle path regardless of `avg_score`.  In every case the
verdict step yields a result (the helper and the verdict functions are
total), so no oracle failure is fatal. -/
theorem oracle_fallback_rules (comp : Comp) (s1 s2 : String)
    (oracle : LLMOutcome)
    (hnd : ¬ (comp.max_hex_sim = 1 ∨ comp.avg_score = 1)) :
    ((analyze_pair_with_llm s1 s2 oracle).is_plagiarized = none →
      ((0.85 : ℚ) < comp.avg_score →
        (verdict_pre comp s1 s2 oracle).final_verdict = "抄襲") ∧
      (¬ ((0.85 : ℚ) < comp.avg_score) →
        (verdict_pre comp s1 s2 oracle).final_verdict = "未抄襲") ∧
      (verdict_pre comp s1 s2 oracle).verdict_reason
        = "LLM分析不可用 - 演算法分析: Hex=" ++ fmt2 comp.max_hex_sim
            ++ ", Source Avg=" ++ fmt2 comp.avg_score) ∧
    ((analyze_pair_with_llm s1 s2 oracle).is_plagiarized = none ↔
      (∃ d : LLMDict, (oracle = .parsedJson d ∨ oracle = .extractedJson d) ∧
        d.is_plagiarized = none)) ∧
    ((oracle = .libMissing ∨ oracle = .noApiKey ∨
        (∃ msg, oracle = .apiError msg) ∨ (∃ content, oracle = .noJson content)) →
      (verdict_pre comp s1 s2 oracle).final_verdict = "未抄襲") := by
  refine ⟨?_, ?_, ?_⟩
  · intro hnone
    have hsome : (analyze_pair_with_llm s1 s2 oracle).is_plagiarized.isSome = false := by
      rw [hnone]; rfl
    refine ⟨?_, ?_, ?_⟩ <;>
      simp only [verdict_pre, if_neg hnd, hsome, Bool.false_eq_true, if_false]
    · intro hgt
      rw [if_pos hgt]
    · intro hle
      rw [if_neg hle]
  · cases oracle with
    | libMissing => simp [analyze_pair_with_llm]
    | noApiKey => simp [analyze_pair_with_llm]
    | apiError msg => simp [analyze_pair_with_llm]
    | parsedJson d =>
        simp only [analyze_pair_with_llm]
        constructor
        · intro hd
          exact ⟨d, Or.inl rfl, hd⟩
        · rintro ⟨d', hd', hnone⟩
          rcases hd' with hd' | hd' <;> cases hd'
          exact hnone
    | extractedJson d =>
        simp only [analyze_pair_with_llm]
        constructor
        · intro hd
          exact ⟨d, Or.inr rfl, hd⟩
        · rintro ⟨d', hd', hnone⟩
          rcases hd' with hd' | hd' <;> cases hd'
          exact hnone
    | noJson content => simp [analyze_pair_with_llm]
  · intro hfail
    have hfalse : (analyze_pair_with_llm s1 s2 oracle).is_plagiarized = some false := by
      rcases hfail with rfl | rfl | ⟨msg, rfl⟩ | ⟨content, rfl⟩ <;> rfl
    simp [verdict_pre, if_neg hnd, hfalse]

/-- Witness for C1 at a concrete input: a JSON object without the
`is_plagiarized` key was extracted from the reply, `avg_score = 0.9`, so
the algorithmic fallback declares `抄襲`; and the same pair with a missing
API key is declared `未抄襲`. -/
theorem oracle_fallback_rules_witness :
    (verdict_pre
      { student1 := "A", student2 := "B",
        source_similarity := { token_seq := 0.9, levenshtein := 0.9 },
        hex_levenshtein := 0.5, max_hex_sim := 0.5, avg_score := 0.9 }
      "" "" (.extractedJson ⟨none, none⟩)).final_verdict = "抄襲" ∧
    (verdict_pre
      { student1 := "A", student2 := "B",
        source_similarity := { token_seq := 0.9, levenshtein := 0.9 },
        hex_levenshtein := 0.5, max_hex_sim := 0.5, avg_score := 0.9 }
      "" "" .noApiKey).final_verdict = "未抄襲" :=
  ⟨(((oracle_fallback_rules
      { student1 := "A", student2 := "B",
        source_similarity := { token_seq := 0.9, levenshtein := 0.9 },
        hex_levenshtein := 0.5, max_hex_sim := 0.5, avg_score := 0.9 }
      "" "" (.extractedJson ⟨none, none⟩) (by norm_num)).1 rfl).1 (by norm_num)),
   ((oracle_fallback_rules
      { student1 := "A", student2 := "B",
        source_similarity := { token_seq := 0.9, levenshtein := 0.9 },
        hex_levenshtein := 0.5, max_hex_sim := 0.5, avg_score := 0.9 }
      "" "" .noApiKey (by norm_num)).2.2 (Or.inr (Or.inl rfl)))⟩

end Plag
